import Mathlib

/-!
Shallow embedding of `src/steps/sync.rs` from `TheSeekerGame/bevy_xpbd`:
the sleep-state tracker (`activate_sleeping`, `deactivate_sleeping`,
`gravity_deactivate_sleeping`) and the pose synchronizer
(`sync_transforms`, 2-D and 3-D feature variants).

Modelling choices:

* `Scalar` (an IEEE float in the source) is embedded as `ℚ`, so that all
  comparisons and arithmetic are exact and decidable.
* The sleep tracker is embedded in its 2-D feature configuration
  (`AngVel` a scalar, `ang_vel_sq = ang_vel.powi(2)`); the pose
  synchronizer is embedded in both its 2-D and 3-D configurations.
* Bevy ECS semantics relevant here: the three sleep systems are registered
  with `.chain()`, which in the Bevy version targeted by this crate
  (Bevy 0.10) only adds ordering constraints and does not apply command
  buffers between systems.  Marker insertion/removal goes through
  `Commands` and is therefore applied at the end of the schedule run,
  after all three systems have executed; direct component writes
  (`TimeSleeping`, `LinVel`, `AngVel` through `Mut`) are immediate.
  Consequently the `With<Sleeping>` / `Without<Sleeping>` query filters of
  all three systems observe the marker set as it stood at the start of
  the tick.  The embedding records pending marker commands as booleans
  and applies them once at the end of `sleep_tick_body`.
* Bevy change detection (`Changed<T>`): a component counts as changed for
  a system when it was written (dereferenced mutably) after that system's
  previous run.  The only consumer of change flags here is
  `deactivate_sleeping`, so each body carries one boolean per watched
  component meaning "written since `deactivate_sleeping` last ran"; the
  flags are set by external writes (tick input) and by the velocity
  writes `activate_sleeping` performs on promotion, and the baseline
  resets once `deactivate_sleeping` has run.  `Res<Gravity>::is_changed`
  is likewise a per-tick boolean input (`gravity_changed`).
-/

namespace BevyXpbd

/-- The simulation scalar (`Scalar` in the source, an IEEE float there),
embedded as `ℚ`. -/
abbrev Scalar := ℚ

/-- A 2-component vector (the 2-D `Vector`). -/
abbrev Vec2 := Scalar × Scalar

/-- A 3-component vector (`Vec3`). -/
abbrev Vec3 := Scalar × Scalar × Scalar

/-- A quaternion, as its four components `(x, y, z, w)`. -/
abbrev Quat := Scalar × Scalar × Scalar × Scalar

/-- Squared euclidean norm of a 2-component vector, as
`lin_vel.length_squared()` computes it. -/
def length_squared (v : Vec2) : Scalar := v.1 * v.1 + v.2 * v.2

/-- The `RigidBody` component: `Dynamic`, `Kinematic` or `Static`. -/
inductive RigidBody where
  | Dynamic
  | Kinematic
  | Static
  deriving DecidableEq, Repr

/-- Translation of `RigidBody::is_dynamic`. -/
def RigidBody.is_dynamic : RigidBody → Bool
  | .Dynamic => true
  | _ => false

/-- Bevy's `Transform`: translation, rotation and scale. -/
structure Transform where
  translation : Vec3
  rotation : Quat
  scale : Vec3
  deriving DecidableEq, Repr

/-- One rigid body's components, 2-D feature configuration, together with
its change-detection flags (see the module docstring). -/
structure Body where
  rb : RigidBody
  pos : Vec2
  /-- Rotation (`Rot`) in 2-D; per the spec a scalar rotation angle. -/
  rot : Scalar
  linVel : Vec2
  angVel : Scalar
  extForce : Vec2
  extTorque : Scalar
  timeSleeping : Scalar
  /-- Whether the `Sleeping` marker component is present. -/
  sleeping : Bool
  /-- Whether the `SleepingDisabled` marker component is present. -/
  sleepingDisabled : Bool
  transform : Transform
  /-- Whether `LinVel` was written since `deactivate_sleeping` last ran. -/
  changedLinVel : Bool
  /-- Whether `AngVel` was written since `deactivate_sleeping` last ran. -/
  changedAngVel : Bool
  /-- Whether `ExternalForce` was written since `deactivate_sleeping` last ran. -/
  changedExtForce : Bool
  /-- Whether `ExternalTorque` was written since `deactivate_sleeping` last ran. -/
  changedExtTorque : Bool
  deriving DecidableEq, Repr

/-- The `SleepingThreshold` resource: linear and angular scalars. -/
structure SleepingThreshold where
  linear : Scalar
  angular : Scalar
  deriving DecidableEq, Repr

/-- The read-only resources consumed by `activate_sleeping`:
`DeactivationTime`, `SleepingThreshold` and `DeltaTime`. -/
structure Config where
  deactivation_time : Scalar
  sleep_threshold : SleepingThreshold
  dt : Scalar
  deriving DecidableEq, Repr

/-- Translation of
`lin_sleeping_threshold_sq = sleep_threshold.linear * sleep_threshold.linear.abs()`
(sign-preserving; negative thresholds indicate that sleeping is disabled). -/
def lin_sleeping_threshold_sq (cfg : Config) : Scalar :=
  cfg.sleep_threshold.linear * |cfg.sleep_threshold.linear|

/-- Translation of
`ang_sleeping_threshold_sq = sleep_threshold.angular * sleep_threshold.angular.abs()`. -/
def ang_sleeping_threshold_sq (cfg : Config) : Scalar :=
  cfg.sleep_threshold.angular * |cfg.sleep_threshold.angular|

/-- The body of `activate_sleeping`'s loop for one queried body.  The query
filter is `(Without<Sleeping>, Without<SleepingDisabled>)`, and the loop
`continue`s on non-dynamic bodies.  Returns the updated body together with
`true` when a `commands.entity(entity).insert(Sleeping)` command was
recorded (the marker itself is attached later, when commands are applied).
On promotion the `Mut` writes `*lin_vel = LinVel::ZERO` and
`*ang_vel = AngVel::ZERO` mark those components changed. -/
def activate_body (cfg : Config) (b : Body) : Body × Bool :=
  if b.sleeping || b.sleepingDisabled then (b, false)
  else if !b.rb.is_dynamic then (b, false)
  else
    let lin_vel_sq := length_squared b.linVel
    let ang_vel_sq := b.angVel ^ 2
    let ts :=
      if lin_vel_sq < lin_sleeping_threshold_sq cfg ∧
          ang_vel_sq < ang_sleeping_threshold_sq cfg then
        b.timeSleeping + cfg.dt
      else 0
    if ts > cfg.deactivation_time then
      ({ b with
          timeSleeping := ts
          linVel := (0, 0)
          angVel := 0
          changedLinVel := true
          changedAngVel := true }, true)
    else
      ({ b with timeSleeping := ts }, false)

/-- The `BodyActivatedFilter`:
`Or<(Changed<LinVel>, Changed<AngVel>, Changed<ExternalForce>, Changed<ExternalTorque>)>`. -/
def body_activated (b : Body) : Bool :=
  b.changedLinVel || b.changedAngVel || b.changedExtForce || b.changedExtTorque

/-- The body of `deactivate_sleeping`'s loop for one queried body.  The
query filter is `(With<Sleeping>, BodyActivatedFilter)`.  Returns the
updated body together with `true` when a
`commands.entity(entity).remove::<Sleeping>()` command was recorded. -/
def deactivate_body (b : Body) : Body × Bool :=
  if b.sleeping && body_activated b then
    ({ b with timeSleeping := 0 }, true)
  else (b, false)

/-- The body of `gravity_deactivate_sleeping` for one queried body: when
`gravity.is_changed()`, every body matching `With<Sleeping>` has a
`remove::<Sleeping>()` command recorded and `time_sleeping.0 = 0.0`. -/
def gravity_deactivate_body (gravity_changed : Bool) (b : Body) : Body × Bool :=
  if gravity_changed && b.sleeping then
    ({ b with timeSleeping := 0 }, true)
  else (b, false)

/-- Advance the change-detection baseline of `deactivate_sleeping` after it
has run: a write performed before that run no longer counts as changed for
its next run. -/
def clear_changed (b : Body) : Body :=
  { b with
      changedLinVel := false
      changedAngVel := false
      changedExtForce := false
      changedExtTorque := false }

/-- One tick of the sleep tracker over a single body: the chained run
`activate_sleeping` → `deactivate_sleeping` → `gravity_deactivate_sleeping`
followed by the application of the buffered marker commands at the end of
the schedule run (Bevy 0.10 applies `Commands` at the end of the schedule;
`.chain()` inserts no buffer application between the systems).  A body is
queried by the promotion sweep exactly when it is outside the demotion
sweeps' `With<Sleeping>` set, so at most one kind of marker command is
recorded per body per tick. -/
def sleep_tick_body (cfg : Config) (gravity_changed : Bool) (b : Body) : Body :=
  let a := activate_body cfg b
  let d := deactivate_body a.1
  let c := clear_changed d.1
  let g := gravity_deactivate_body gravity_changed c
  { g.1 with
      sleeping :=
        if a.2 then true
        else if d.2 || g.2 then false
        else g.1.sleeping }

/-- One tick of the sleep tracker over the whole body set: the three
systems are per-body sweeps with no cross-body interaction. -/
def sleep_tick (cfg : Config) (gravity_changed : Bool) (world : List Body) :
    List Body :=
  world.map (sleep_tick_body cfg gravity_changed)

/-- The loop body of `sync_transforms` in the 2-D feature configuration:
`transform.translation = pos.extend(0.0)` and `transform.rotation` is the
quaternion obtained from `Rot` via `Quaternion::from`.  That conversion
lives outside this file's source; `toQuat` stands for it.  Modelled from
the spec: `toQuat` is the conversion producing "the quaternion
representing a rotation by `Rot` (a scalar angle) about the out-of-plane
axis". -/
def sync_transforms_body_2d (toQuat : Scalar → Quat) (b : Body) : Body :=
  { b with
      transform :=
        { b.transform with
            translation := (b.pos.1, b.pos.2, 0)
            rotation := toQuat b.rot } }

/-- Sweep of `sync_transforms` (2-D) over the whole queried body set. -/
def sync_transforms_2d (toQuat : Scalar → Quat) (world : List Body) :
    List Body :=
  world.map (sync_transforms_body_2d toQuat)

/-- A body's components in the 3-D feature configuration, restricted to
what `sync_transforms` queries (`&mut Transform, &Pos, &Rot`) plus the
`Sleeping` marker (to state sleep-independence). -/
structure Body3 where
  pos : Vec3
  rot : Quat
  sleeping : Bool
  transform : Transform
  deriving DecidableEq, Repr

/-- The loop body of `sync_transforms` in the 3-D feature configuration:
`transform.translation = pos.0` and `transform.rotation = rot.0`, passed
through directly. -/
def sync_transforms_body_3d (b : Body3) : Body3 :=
  { b with
      transform :=
        { b.transform with
            translation := b.pos
            rotation := b.rot } }

/-- Sweep of `sync_transforms` (3-D) over the whole queried body set. -/
def sync_transforms_3d (world : List Body3) : List Body3 :=
  world.map sync_transforms_body_3d

/-- The repository's sleep-marker invariant: `Sleeping` is only ever
present on `Dynamic` bodies that do not carry `SleepingDisabled`. -/
def SleepInvariant (world : List Body) : Prop :=
  ∀ b ∈ world, b.sleeping = true →
    b.rb.is_dynamic = true ∧ b.sleepingDisabled = false

/-! Concrete example data, used by witnesses and counterexamples. -/

/-- A default presentation transform. -/
def transform0 : Transform :=
  { translation := (0, 0, 0), rotation := (0, 0, 0, 1), scale := (1, 1, 1) }

/-- A dynamic body at rest, awake, with no pending change flags. -/
def body0 : Body :=
  { rb := .Dynamic, pos := (0, 0), rot := 0, linVel := (0, 0), angVel := 0,
    extForce := (0, 0), extTorque := 0, timeSleeping := 0, sleeping := false,
    sleepingDisabled := false, transform := transform0,
    changedLinVel := false, changedAngVel := false,
    changedExtForce := false, changedExtTorque := false }

/-- A configuration under which `body0` is promoted after one tick. -/
def cfg0 : Config :=
  { deactivation_time := 0,
    sleep_threshold := { linear := 1, angular := 1 }, dt := 1 }

/-- A configuration with a negative linear threshold and a negative
deactivation time. -/
def cfgNeg : Config :=
  { deactivation_time := -1,
    sleep_threshold := { linear := -1, angular := 1 }, dt := 1 }

/-- A configuration with a negative linear threshold and a non-negative
deactivation time. -/
def cfgNegOk : Config :=
  { deactivation_time := 0,
    sleep_threshold := { linear := -1, angular := 1 }, dt := 1 }

/-- A sleeping body that just received an `ExternalForce` write. -/
def bodySleepingForce : Body :=
  { body0 with sleeping := true, changedExtForce := true }

/-- A sleeping body with no pending change flags. -/
def bodySleeping : Body := { body0 with sleeping := true }

/-- A static body, awake. -/
def bodyStatic : Body := { body0 with rb := .Static }

/-- A small world satisfying the sleep-marker invariant. -/
def world0 : List Body := [body0, bodyStatic]

/-! ### Helper lemmas -/

lemma length_squared_nonneg (v : Vec2) : 0 ≤ length_squared v :=
  add_nonneg (mul_self_nonneg _) (mul_self_nonneg _)

lemma lin_sleeping_threshold_sq_neg (cfg : Config)
    (h : cfg.sleep_threshold.linear < 0) : lin_sleeping_threshold_sq cfg < 0 :=
  mul_neg_of_neg_of_pos h (abs_pos.mpr (ne_of_lt h))

@[simp] lemma activate_body_fst_rb (cfg : Config) (b : Body) :
    (activate_body cfg b).1.rb = b.rb := by
  simp only [activate_body]; split_ifs <;> rfl

@[simp] lemma activate_body_fst_sleeping (cfg : Config) (b : Body) :
    (activate_body cfg b).1.sleeping = b.sleeping := by
  simp only [activate_body]; split_ifs <;> rfl

@[simp] lemma activate_body_fst_sleepingDisabled (cfg : Config) (b : Body) :
    (activate_body cfg b).1.sleepingDisabled = b.sleepingDisabled := by
  simp only [activate_body]; split_ifs <;> rfl

@[simp] lemma deactivate_body_fst_sleeping (b : Body) :
    (deactivate_body b).1.sleeping = b.sleeping := by
  simp only [deactivate_body]; split_ifs <;> rfl

@[simp] lemma deactivate_body_fst_rb (b : Body) :
    (deactivate_body b).1.rb = b.rb := by
  simp only [deactivate_body]; split_ifs <;> rfl

@[simp] lemma deactivate_body_fst_sleepingDisabled (b : Body) :
    (deactivate_body b).1.sleepingDisabled = b.sleepingDisabled := by
  simp only [deactivate_body]; split_ifs <;> rfl

@[simp] lemma deactivate_body_fst_linVel (b : Body) :
    (deactivate_body b).1.linVel = b.linVel := by
  simp only [deactivate_body]; split_ifs <;> rfl

@[simp] lemma deactivate_body_fst_angVel (b : Body) :
    (deactivate_body b).1.angVel = b.angVel := by
  simp only [deactivate_body]; split_ifs <;> rfl

@[simp] lemma clear_changed_sleeping (b : Body) :
    (clear_changed b).sleeping = b.sleeping := rfl

@[simp] lemma clear_changed_rb (b : Body) :
    (clear_changed b).rb = b.rb := rfl

@[simp] lemma clear_changed_sleepingDisabled (b : Body) :
    (clear_changed b).sleepingDisabled = b.sleepingDisabled := rfl

@[simp] lemma clear_changed_linVel (b : Body) :
    (clear_changed b).linVel = b.linVel := rfl

@[simp] lemma clear_changed_angVel (b : Body) :
    (clear_changed b).angVel = b.angVel := rfl

@[simp] lemma clear_changed_timeSleeping (b : Body) :
    (clear_changed b).timeSleeping = b.timeSleeping := rfl

@[simp] lemma gravity_deactivate_body_fst_sleeping (gc : Bool) (b : Body) :
    (gravity_deactivate_body gc b).1.sleeping = b.sleeping := by
  simp only [gravity_deactivate_body]; split_ifs <;> rfl

@[simp] lemma gravity_deactivate_body_fst_rb (gc : Bool) (b : Body) :
    (gravity_deactivate_body gc b).1.rb = b.rb := by
  simp only [gravity_deactivate_body]; split_ifs <;> rfl

@[simp] lemma gravity_deactivate_body_fst_sleepingDisabled (gc : Bool) (b : Body) :
    (gravity_deactivate_body gc b).1.sleepingDisabled = b.sleepingDisabled := by
  simp only [gravity_deactivate_body]; split_ifs <;> rfl

@[simp] lemma gravity_deactivate_body_fst_linVel (gc : Bool) (b : Body) :
    (gravity_deactivate_body gc b).1.linVel = b.linVel := by
  simp only [gravity_deactivate_body]; split_ifs <;> rfl

@[simp] lemma gravity_deactivate_body_fst_angVel (gc : Bool) (b : Body) :
    (gravity_deactivate_body gc b).1.angVel = b.angVel := by
  simp only [gravity_deactivate_body]; split_ifs <;> rfl

/-- The final `Sleeping` marker state after one tick, in terms of the
pending commands recorded by the three systems. -/
lemma sleep_tick_body_sleeping_eq (cfg : Config) (gc : Bool) (b : Body) :
    (sleep_tick_body cfg gc b).sleeping =
      ((activate_body cfg b).2 ||
        (!((deactivate_body (activate_body cfg b).1).2 ||
            (gravity_deactivate_body gc
              (clear_changed (deactivate_body (activate_body cfg b).1).1)).2) &&
          b.sleeping)) := by
  simp only [sleep_tick_body]
  cases hA : (activate_body cfg b).2 <;>
    cases hD : (deactivate_body (activate_body cfg b).1).2 <;>
      cases hG : (gravity_deactivate_body gc
          (clear_changed (deactivate_body (activate_body cfg b).1).1)).2 <;>
        simp [hA, hD, hG]

lemma sleep_tick_body_rb (cfg : Config) (gc : Bool) (b : Body) :
    (sleep_tick_body cfg gc b).rb = b.rb := by
  simp only [sleep_tick_body]; simp

lemma sleep_tick_body_sleepingDisabled (cfg : Config) (gc : Bool) (b : Body) :
    (sleep_tick_body cfg gc b).sleepingDisabled = b.sleepingDisabled := by
  simp only [sleep_tick_body]; simp

lemma activate_body_promoted (cfg : Config) (b : Body)
    (h : (activate_body cfg b).2 = true) :
    b.sleeping = false ∧ b.sleepingDisabled = false ∧ b.rb.is_dynamic = true := by
  simp only [activate_body] at h
  split_ifs at h with h1 h2 h3 <;> simp_all

lemma activate_body_no_promotion_of_neg_linear (cfg : Config)
    (hneg : cfg.sleep_threshold.linear < 0)
    (hdt : 0 ≤ cfg.deactivation_time) (b : Body) :
    (activate_body cfg b).2 = false := by
  have hth : lin_sleeping_threshold_sq cfg < 0 := lin_sleeping_threshold_sq_neg cfg hneg
  have hlen : 0 ≤ length_squared b.linVel := length_squared_nonneg b.linVel
  simp only [activate_body]
  split_ifs with h1 h2 h3 h4 h5 <;> try rfl
  · exact absurd h3.1 (by linarith)
  · exact absurd h5 (by linarith)

lemma sleep_tick_body_stays_awake (cfg : Config) (gc : Bool) (b : Body)
    (h2 : (activate_body cfg b).2 = false) (hs : b.sleeping = false) :
    (sleep_tick_body cfg gc b).sleeping = false := by
  rw [sleep_tick_body_sleeping_eq, h2]
  simp [hs]

lemma foldl_sleep_tick_stays_awake (cfg : Config)
    (hneg : cfg.sleep_threshold.linear < 0)
    (hdt : 0 ≤ cfg.deactivation_time) (gcs : List Bool) :
    ∀ b : Body, b.sleeping = false →
      (gcs.foldl (fun bb gc => sleep_tick_body cfg gc bb) b).sleeping = false := by
  induction gcs with
  | nil => intro b hs; exact hs
  | cons gc gcs ih =>
      intro b hs
      exact ih _ (sleep_tick_body_stays_awake cfg gc b
        (activate_body_no_promotion_of_neg_linear cfg hneg hdt b) hs)

/-! ### Claims -/

/-- Claim C1: in `activate_sleeping`, every Dynamic body without `Sleeping`
and without `SleepingDisabled` whose `TimeSleeping` strictly exceeds
`DeactivationTime` after this tick's accumulation gets a `Sleeping` insert
command, and both `LinVel` and `AngVel` are set to exactly zero; at the
end of the same tick the body carries the `Sleeping` marker with zero
velocities. -/
theorem activate_sleeping_promotes_and_zeroes (cfg : Config) (gc : Bool) (b : Body)
    (hs : b.sleeping = false) (hd : b.sleepingDisabled = false)
    (hdyn : b.rb.is_dynamic = true)
    (ht : (if length_squared b.linVel < lin_sleeping_threshold_sq cfg ∧
              b.angVel ^ 2 < ang_sleeping_threshold_sq cfg then
             b.timeSleeping + cfg.dt
           else 0) > cfg.deactivation_time) :
    (activate_body cfg b).2 = true ∧
    (activate_body cfg b).1.linVel = (0, 0) ∧
    (activate_body cfg b).1.angVel = 0 ∧
    (sleep_tick_body cfg gc b).sleeping = true ∧
    (sleep_tick_body cfg gc b).linVel = (0, 0) ∧
    (sleep_tick_body cfg gc b).angVel = 0 := by
  have ha : (activate_body cfg b).2 = true ∧
      (activate_body cfg b).1.linVel = (0, 0) ∧
      (activate_body cfg b).1.angVel = 0 := by
    simp only [activate_body, hs, hd, hdyn, Bool.false_or, if_false,
      Bool.not_true, ite_false]
    rw [if_pos ht]
    simp
  refine ⟨ha.1, ha.2.1, ha.2.2, ?_, ?_, ?_⟩
  · rw [sleep_tick_body_sleeping_eq, ha.1]; simp
  · simp only [sleep_tick_body]
    simp [ha.2.1]
  · simp only [sleep_tick_body]
    simp [ha.2.2]

/-- Witness for claim C1 at `cfg0` and `body0`. -/
theorem activate_sleeping_promotes_and_zeroes_witness :
    (sleep_tick_body cfg0 false body0).sleeping = true ∧
    (sleep_tick_body cfg0 false body0).linVel = (0, 0) ∧
    (sleep_tick_body cfg0 false body0).angVel = 0 := by
  have h := activate_sleeping_promotes_and_zeroes cfg0 false body0 rfl rfl rfl
    (by norm_num [body0, cfg0, length_squared, lin_sleeping_threshold_sq,
      ang_sleeping_threshold_sq])
  exact ⟨h.2.2.2.1, h.2.2.2.2.1, h.2.2.2.2.2⟩

/-- Claim C2: in `activate_sleeping`, for every eligible Dynamic body, if
the squared linear speed is strictly below the squared linear threshold
and the squared angular speed is strictly below the squared angular
threshold then `TimeSleeping` is increased by exactly `DeltaTime`;
otherwise it is set to exactly `0` on that same tick. -/
theorem activate_sleeping_time_update (cfg : Config) (b : Body)
    (hs : b.sleeping = false) (hd : b.sleepingDisabled = false)
    (hdyn : b.rb.is_dynamic = true) :
    (length_squared b.linVel < lin_sleeping_threshold_sq cfg ∧
        b.angVel ^ 2 < ang_sleeping_threshold_sq cfg →
      (activate_body cfg b).1.timeSleeping = b.timeSleeping + cfg.dt) ∧
    (¬(length_squared b.linVel < lin_sleeping_threshold_sq cfg ∧
        b.angVel ^ 2 < ang_sleeping_threshold_sq cfg) →
      (activate_body cfg b).1.timeSleeping = 0) := by
  constructor <;> intro h <;>
    simp only [activate_body, hs, hd, hdyn, Bool.false_or, if_false,
      Bool.not_true, ite_false] <;>
    [rw [if_pos h]; rw [if_neg h]] <;> split_ifs <;> simp_all

/-- Witness for claim C2 at `cfg0` and `body0` (still branch). -/
theorem activate_sleeping_time_update_witness :
    (activate_body cfg0 body0).1.timeSleeping = body0.timeSleeping + cfg0.dt := by
  have h := activate_sleeping_time_update cfg0 body0 rfl rfl rfl
  exact h.1 (by norm_num [body0, cfg0, length_squared, lin_sleeping_threshold_sq,
    ang_sleeping_threshold_sq])

/-- Counterexample for claim C3 as stated: with a negative linear
threshold and a negative `DeactivationTime`, a Dynamic body is promoted to
`Sleeping` on the very first tick, because `TimeSleeping` is reset to `0`
and `0 > DeactivationTime` holds. -/
theorem negative_threshold_promotion_counterexample :
    cfgNeg.sleep_threshold.linear < 0 ∧
    body0.rb = RigidBody.Dynamic ∧ body0.sleeping = false ∧
    (activate_body cfgNeg body0).2 = true ∧
    (sleep_tick_body cfgNeg false body0).sleeping = true := by
  norm_num [cfgNeg, body0, activate_body, sleep_tick_body, deactivate_body,
    clear_changed, gravity_deactivate_body, body_activated, length_squared,
    lin_sleeping_threshold_sq, ang_sleeping_threshold_sq, RigidBody.is_dynamic]

/-- Claim C3, amended: the squared thresholds are computed as
`threshold * threshold.abs()` (this is definitional:
`lin_sleeping_threshold_sq`); and if the configured linear sleeping
threshold is negative then — for every *non-negative* `DeactivationTime` —
no body is ever promoted to `Sleeping`: no tick records an insert command,
an eligible body's `TimeSleeping` is reset to `0` every tick, and an awake
body stays awake over any sequence of ticks.  (As originally stated,
"regardless of the value of `DeactivationTime`", the claim is false: see
`negative_threshold_promotion_counterexample`.) -/
theorem negative_linear_threshold_disables_sleep (cfg : Config)
    (hneg : cfg.sleep_threshold.linear < 0)
    (hdt : 0 ≤ cfg.deactivation_time) (b : Body) :
    (activate_body cfg b).2 = false ∧
    (b.sleeping = false → b.sleepingDisabled = false → b.rb.is_dynamic = true →
      (activate_body cfg b).1.timeSleeping = 0) ∧
    (∀ gcs : List Bool, b.sleeping = false →
      (gcs.foldl (fun bb gc => sleep_tick_body cfg gc bb) b).sleeping = false) := by
  have hth : lin_sleeping_threshold_sq cfg < 0 := lin_sleeping_threshold_sq_neg cfg hneg
  have hlen : 0 ≤ length_squared b.linVel := length_squared_nonneg b.linVel
  refine ⟨activate_body_no_promotion_of_neg_linear cfg hneg hdt b, ?_, ?_⟩
  · intro hs hd hdyn
    have hcond : ¬(length_squared b.linVel < lin_sleeping_threshold_sq cfg ∧
        b.angVel ^ 2 < ang_sleeping_threshold_sq cfg) := fun hc => absurd hc.1 (by linarith)
    simp only [activate_body, hs, hd, hdyn, Bool.false_or, if_false,
      Bool.not_true, ite_false]
    rw [if_neg hcond, if_neg (not_lt.mpr hdt)]
    rfl
  · intro gcs hs
    exact foldl_sleep_tick_stays_awake cfg hneg hdt gcs b hs

/-- Witness for the amended claim C3 at `cfgNegOk` and `body0`. -/
theorem negative_linear_threshold_disables_sleep_witness :
    (activate_body cfgNegOk body0).2 = false ∧
    (activate_body cfgNegOk body0).1.timeSleeping = 0 ∧
    ([true, false].foldl (fun bb gc => sleep_tick_body cfgNegOk gc bb)
      body0).sleeping = false := by
  have h := negative_linear_threshold_disables_sleep cfgNegOk
    (by norm_num [cfgNegOk]) (by norm_num [cfgNegOk]) body0
  exact ⟨h.1, h.2.1 rfl rfl rfl, h.2.2 [true, false] rfl⟩

/-- Claim C4: in `deactivate_sleeping`, every body carrying `Sleeping` for
which at least one of `LinVel`, `AngVel`, `ExternalForce`,
`ExternalTorque` was written since the previous tick has a
`remove::<Sleeping>()` command recorded and `TimeSleeping` reset to `0`;
at the end of the same tick the marker is gone and `TimeSleeping` is `0`.
Bodies not matching the condition are left unchanged by this step. -/
theorem deactivate_sleeping_wakes_on_write (cfg : Config) (gc : Bool) (b : Body) :
    (b.sleeping = true → body_activated b = true →
      deactivate_body b = ({ b with timeSleeping := 0 }, true) ∧
      (sleep_tick_body cfg gc b).sleeping = false ∧
      (sleep_tick_body cfg gc b).timeSleeping = 0) ∧
    (¬(b.sleeping = true ∧ body_activated b = true) →
      deactivate_body b = (b, false)) := by
  constructor
  · intro hs hact
    have ha : activate_body cfg b = (b, false) := by
      simp only [activate_body, hs]; rfl
    have hd : deactivate_body b = ({ b with timeSleeping := 0 }, true) := by
      simp only [deactivate_body, hs, hact]; rfl
    refine ⟨hd, ?_, ?_⟩
    · rw [sleep_tick_body_sleeping_eq, ha]
      simp [hd]
    · simp only [sleep_tick_body, ha, hd]
      simp only [clear_changed, gravity_deactivate_body]
      split_ifs <;> rfl
  · intro h
    simp only [deactivate_body]
    rw [if_neg]
    intro hc
    rw [Bool.and_eq_true] at hc
    exact h hc

/-- Witness for claim C4 at `bodySleepingForce`. -/
theorem deactivate_sleeping_wakes_on_write_witness :
    deactivate_body bodySleepingForce
      = ({ bodySleepingForce with timeSleeping := 0 }, true) ∧
    (sleep_tick_body cfg0 false bodySleepingForce).sleeping = false ∧
    (sleep_tick_body cfg0 false bodySleepingForce).timeSleeping = 0 :=
  (deactivate_sleeping_wakes_on_write cfg0 false bodySleepingForce).1 rfl rfl

/-- Claim C5: in `gravity_deactivate_sleeping`, if `Gravity` changed this
tick then every body carrying `Sleeping` — regardless of its velocities —
has a `remove::<Sleeping>()` command recorded and `TimeSleeping` reset to
`0`, and at the end of the same tick the marker is gone; if `Gravity` did
not change, the step modifies no body. -/
theorem gravity_deactivate_wakes_all (cfg : Config) (b : Body) :
    (b.sleeping = true →
      gravity_deactivate_body true b = ({ b with timeSleeping := 0 }, true) ∧
      (sleep_tick_body cfg true b).sleeping = false ∧
      (sleep_tick_body cfg true b).timeSleeping = 0) ∧
    (gravity_deactivate_body false b = (b, false)) := by
  constructor
  · intro hs
    have ha : activate_body cfg b = (b, false) := by
      simp only [activate_body, hs]; rfl
    have hg : gravity_deactivate_body true b = ({ b with timeSleeping := 0 }, true) := by
      simp only [gravity_deactivate_body, hs]; rfl
    refine ⟨hg, ?_, ?_⟩
    · rw [sleep_tick_body_sleeping_eq, ha]
      simp only [deactivate_body, clear_changed, gravity_deactivate_body, hs]
      split_ifs <;> simp_all
    · simp only [sleep_tick_body, ha]
      simp only [deactivate_body, clear_changed, gravity_deactivate_body, hs]
      split_ifs <;> simp_all
  · simp only [gravity_deactivate_body]; rfl

/-- Witness for claim C5 at `bodySleeping`. -/
theorem gravity_deactivate_wakes_all_witness :
    gravity_deactivate_body true bodySleeping
      = ({ bodySleeping with timeSleeping := 0 }, true) ∧
    (sleep_tick_body cfg0 true bodySleeping).sleeping = false ∧
    (sleep_tick_body cfg0 true bodySleeping).timeSleeping = 0 :=
  (gravity_deactivate_wakes_all cfg0 bodySleeping).1 rfl

/-- Claim C6: every tick of the tracker preserves the invariant that the
`Sleeping` marker is only present on Dynamic bodies without
`SleepingDisabled`; starting from any state satisfying the invariant, no
Static body, no Kinematic body and no body with `SleepingDisabled` ever
acquires `Sleeping`. -/
theorem sleep_tick_preserves_invariant (cfg : Config) (gc : Bool)
    (world : List Body) (h : SleepInvariant world) :
    SleepInvariant (sleep_tick cfg gc world) := by
  intro b' hb' hsleep
  simp only [sleep_tick, List.mem_map] at hb'
  obtain ⟨b, hb, rfl⟩ := hb'
  rw [sleep_tick_body_rb, sleep_tick_body_sleepingDisabled]
  rw [sleep_tick_body_sleeping_eq] at hsleep
  by_cases hp : (activate_body cfg b).2 = true
  · obtain ⟨-, hd, hdyn⟩ := activate_body_promoted cfg b hp
    exact ⟨hdyn, hd⟩
  · rw [Bool.not_eq_true] at hp
    rw [hp] at hsleep
    simp only [Bool.false_or, Bool.and_eq_true] at hsleep
    exact h b hb hsleep.2

/-- Witness for claim C6 at `world0`. -/
theorem sleep_tick_preserves_invariant_witness :
    SleepInvariant world0 ∧ SleepInvariant (sleep_tick cfg0 false world0) := by
  have h0 : SleepInvariant world0 := by
    intro b hb
    fin_cases hb <;> simp [body0, bodyStatic]
  exact ⟨h0, sleep_tick_preserves_invariant cfg0 false world0 h0⟩

/-- Claim C7: within a single tick, a body promoted to `Sleeping` by
`activate_sleeping` is never demoted by either demotion step of the same
tick: it was outside the demotion sweeps' `With<Sleeping>` set (it was
awake at the start of the tick), neither demotion step records a removal
for it, and it carries the `Sleeping` marker at the end of the tick. -/
theorem promotion_not_demoted_same_tick (cfg : Config) (gc : Bool) (b : Body)
    (h : (activate_body cfg b).2 = true) :
    b.sleeping = false ∧
    (deactivate_body (activate_body cfg b).1).2 = false ∧
    (gravity_deactivate_body gc
      (clear_changed (deactivate_body (activate_body cfg b).1).1)).2 = false ∧
    (sleep_tick_body cfg gc b).sleeping = true := by
  obtain ⟨hs, -, -⟩ := activate_body_promoted cfg b h
  have hd : (deactivate_body (activate_body cfg b).1).2 = false := by
    simp only [deactivate_body]
    rw [if_neg (by simp [hs])]
  have hg : (gravity_deactivate_body gc
      (clear_changed (deactivate_body (activate_body cfg b).1).1)).2 = false := by
    simp only [gravity_deactivate_body]
    rw [if_neg (by simp [hs])]
  refine ⟨hs, hd, hg, ?_⟩
  rw [sleep_tick_body_sleeping_eq, h]
  simp

/-- Witness for claim C7 at `cfg0`, `body0`, with the gravity flag set. -/
theorem promotion_not_demoted_same_tick_witness :
    body0.sleeping = false ∧
    (deactivate_body (activate_body cfg0 body0).1).2 = false ∧
    (gravity_deactivate_body true
      (clear_changed (deactivate_body (activate_body cfg0 body0).1).1)).2 = false ∧
    (sleep_tick_body cfg0 true body0).sleeping = true :=
  promotion_not_demoted_same_tick cfg0 true body0
    (by norm_num [activate_body, cfg0, body0, length_squared,
      lin_sleeping_threshold_sq, ang_sleeping_threshold_sq, RigidBody.is_dynamic])

/-- Counterexample for claim C8 as stated: in the very scenario the claim
describes — `Gravity` changes during the tick and a body is promoted by
`activate_sleeping` earlier in that same tick — the gravity demotion does
not remove the same-tick `Sleeping` marker: the body still carries it at
the end of the tick. -/
theorem gravity_override_counterexample :
    (activate_body cfg0 body0).2 = true ∧
    (sleep_tick_body cfg0 true body0).sleeping = true := by
  norm_num [cfg0, body0, activate_body, sleep_tick_body, deactivate_body,
    clear_changed, gravity_deactivate_body, body_activated, length_squared,
    lin_sleeping_threshold_sq, ang_sleeping_threshold_sq, RigidBody.is_dynamic]

/-- Claim C8, amended: the gravity-change demotion can never override a
sleep state attached in the same tick.  Marker insertion is buffered until
the end of the schedule run, so `gravity_deactivate_sleeping` only
examines bodies that carried `Sleeping` at the start of the tick: for
every body promoted this tick, even with `Gravity` changed, the demotion
records no removal and the body is asleep at the end of the tick. -/
theorem gravity_demotion_cannot_override_same_tick (cfg : Config) (b : Body)
    (h : (activate_body cfg b).2 = true) :
    (gravity_deactivate_body true
      (clear_changed (deactivate_body (activate_body cfg b).1).1)).2 = false ∧
    (sleep_tick_body cfg true b).sleeping = true := by
  obtain ⟨hs, -, -⟩ := activate_body_promoted cfg b h
  constructor
  · simp only [gravity_deactivate_body]
    rw [if_neg (by simp [hs])]
  · rw [sleep_tick_body_sleeping_eq, h]
    simp

/-- Witness for the amended claim C8 at `cfg0` and `body0`. -/
theorem gravity_demotion_cannot_override_same_tick_witness :
    (gravity_deactivate_body true
      (clear_changed (deactivate_body (activate_body cfg0 body0).1).1)).2 = false ∧
    (sleep_tick_body cfg0 true body0).sleeping = true :=
  gravity_demotion_cannot_override_same_tick cfg0 body0
    (by norm_num [activate_body, cfg0, body0, length_squared,
      lin_sleeping_threshold_sq, ang_sleeping_threshold_sq, RigidBody.is_dynamic])

/-- Claim C9: `sync_transforms` runs for every queried body regardless of
sleep state and sets, in 2-D, translation to `(Pos.x, Pos.y, 0)` and
rotation to the quaternion conversion of the scalar angle `Rot`; in 3-D,
translation to `Pos` and rotation to `Rot` passed through directly. -/
theorem sync_transforms_pose_mapping (toQuat : Scalar → Quat) (b : Body)
    (b3 : Body3) (s s3 : Bool) :
    (sync_transforms_body_2d toQuat b).transform.translation = (b.pos.1, b.pos.2, 0) ∧
    (sync_transforms_body_2d toQuat b).transform.rotation = toQuat b.rot ∧
    (sync_transforms_body_2d toQuat { b with sleeping := s }).transform
      = (sync_transforms_body_2d toQuat b).transform ∧
    (sync_transforms_body_3d b3).transform.translation = b3.pos ∧
    (sync_transforms_body_3d b3).transform.rotation = b3.rot ∧
    (sync_transforms_body_3d { b3 with sleeping := s3 }).transform
      = (sync_transforms_body_3d b3).transform :=
  ⟨rfl, rfl, rfl, rfl, rfl, rfl⟩

/-- Claim C10: `sync_transforms` writes only the translation and rotation
fields of the `Transform`; the scale — the only other field of a
`Transform` — is left unchanged, in both the 2-D and 3-D variants. -/
theorem sync_transforms_preserves_scale (toQuat : Scalar → Quat) (b : Body)
    (b3 : Body3) :
    (sync_transforms_body_2d toQuat b).transform.scale = b.transform.scale ∧
    (sync_transforms_body_3d b3).transform.scale = b3.transform.scale :=
  ⟨rfl, rfl⟩

end BevyXpbd
